import Mathlib

/-!
Verification of the data-validation and quality-scoring subsystem of the
flight-fare repository (`src/data/validation.py` and
`notebooks/scripts/data_quality.py`).

A pandas dataframe is modelled as a `Snapshot`: a list of named, typed
columns, each holding a list of cell values.  Python floats are modelled
as `Rat` (the numeric reasoning in the claims is exact); a missing cell
(`NaN` / `None`) is the value `Value.vNull`.  Fallible Python code
(a raised exception, or a `NaN` produced by a zero division) is modelled
with `Option` / `Except`.
-/

namespace FlightFare

/-- Pandas column dtypes used by the flight schema. -/
inductive DType
  | dstr
  | dfloat
  | dint
deriving DecidableEq, Repr

/-- A cell of a dataframe: a string, a number (Python floats and ints
modelled as `Rat`), or a missing value (`NaN`). -/
inductive Value
  | vStr (s : String)
  | vNum (q : Rat)
  | vNull
deriving DecidableEq, Repr

/-- One named, typed column of a dataframe. -/
structure Col where
  name : String
  dtype : DType
  values : List Value
deriving DecidableEq, Repr

/-- A dataframe: pandas stores an ordered list of named columns. -/
structure Snapshot where
  cols : List Col
deriving DecidableEq, Repr

/-- Embeds `df.columns`. -/
def Snapshot.columns (df : Snapshot) : List String :=
  df.cols.map Col.name

/-- Embeds `len(df)`: the number of rows (pandas keeps all columns the same
length; on an empty frame this is 0). -/
def Snapshot.nRows (df : Snapshot) : Nat :=
  (df.cols.head?.map fun c => c.values.length).getD 0

/-- Embeds `df.shape[1]`: the number of columns. -/
def Snapshot.nCols (df : Snapshot) : Nat :=
  df.cols.length

/-- Embeds `df[name]` as an optional column (`none` models a `KeyError`). -/
def Snapshot.getCol (df : Snapshot) (name : String) : Option Col :=
  df.cols.find? fun c => c.name == name

/-- The values of column `name`; `[]` when the column is absent. -/
def Snapshot.colVals (df : Snapshot) (name : String) : List Value :=
  ((df.getCol name).map Col.values).getD []

/-- Row `i` as the list of cell values in column order. -/
def Snapshot.row (df : Snapshot) (i : Nat) : List Value :=
  df.cols.map fun c => c.values.getD i Value.vNull

/-- All rows of the frame, in order. -/
def Snapshot.rowsList (df : Snapshot) : List (List Value) :=
  (List.range df.nRows).map df.row

/-- Row `i` restricted to the columns `sel` (used by
`df.duplicated(subset=sel)`); an absent column contributes a null. -/
def Snapshot.subRow (df : Snapshot) (sel : List String) (i : Nat) : List Value :=
  sel.map fun cn =>
    match df.getCol cn with
    | some c => c.values.getD i Value.vNull
    | none => Value.vNull

/-- Is a cell missing (`isnull`)?  Pandas treats `NaN` cells as equal to
each other for duplicate detection, which `Value.vNull = Value.vNull`
mirrors. -/
def Value.isNull : Value → Bool
  | Value.vNull => true
  | _ => false

/-- Numeric view of a cell; `none` for nulls and strings (arithmetic with
them yields `NaN`, and every `NaN` comparison is false). -/
def Value.toRat? : Value → Option Rat
  | Value.vNum q => some q
  | _ => none

/-- Embeds `Series.duplicated(keep="first").sum()` over a list of row keys: the
number of entries preceded by an equal entry. -/
def dupCountAux (seen : List (List Value)) : List (List Value) → Nat
  | [] => 0
  | k :: rest => (if k ∈ seen then 1 else 0) + dupCountAux (k :: seen) rest

/-- Embeds `df.duplicated(...).sum()` on a list of row keys. -/
def dupCount (ks : List (List Value)) : Nat :=
  dupCountAux [] ks

/-- Embeds `df.duplicated().sum()`: count of exact full-row duplicates. -/
def Snapshot.fullDupCount (df : Snapshot) : Nat :=
  dupCount df.rowsList

/-- Embeds `df.duplicated(subset=sel).sum()`: duplicates on the key columns. -/
def Snapshot.dupOnSubset (df : Snapshot) (sel : List String) : Nat :=
  dupCount ((List.range df.nRows).map (df.subRow sel))

/-- Embeds `df[col].isnull().sum()` for one column. -/
def Col.nullCount (c : Col) : Nat :=
  c.values.countP Value.isNull

/-- Embeds `df.isnull().sum().sum()`: total missing cells, summed column-wise. -/
def Snapshot.missingTotal (df : Snapshot) : Nat :=
  (df.cols.map Col.nullCount).sum

/-! ## `data_quality.generate_quality_summary` -/

/-- The dictionary returned by `generate_quality_summary`.  The
`quality_score` is `none` when the Python expression
`100 * (1 - (missing + duplicates) / (rows * columns))` divides by zero
(numpy yields `NaN` rather than a number). -/
structure QualitySummary where
  total_rows : Nat
  total_columns : Nat
  missing_values : Nat
  duplicates : Nat
  quality_score : Option Rat
deriving DecidableEq, Repr

/-- Embeds `generate_quality_summary(df)` from `data_quality.py`.  The function
prints `df["Total Fare (BDT)"]` statistics before returning, so it raises
a `KeyError` (modelled as `none`) when the fare column is absent. -/
def generate_quality_summary (df : Snapshot) : Option QualitySummary :=
  if df.columns.contains "Total Fare (BDT)" then
    some
      { total_rows := df.nRows
        total_columns := df.nCols
        missing_values := df.missingTotal
        duplicates := df.fullDupCount
        quality_score :=
          if df.nRows * df.nCols = 0 then none
          else some (100 * (1 - ((df.missingTotal : Rat) + (df.fullDupCount : Rat)) /
            ((df.nRows * df.nCols : Nat) : Rat))) }
  else none

/-- The quality score alone, when the summary call returns one. -/
def qualityScore? (df : Snapshot) : Option Rat :=
  (generate_quality_summary df).bind QualitySummary.quality_score

/-- Modelled from the spec: the Quality Scorer contract of section 4.4,
`completeness = (rows_with_no_missing_field / total_rows) × 100`,
`uniqueness = (1 − duplicate_rows/total_rows) × 100`,
`overall = (completeness + uniqueness) / 2` (defined for non-empty
snapshots).  This is the comparison target for the refinement claim about
the code's score; the code itself is `generate_quality_summary`. -/
def specOverallScore (df : Snapshot) : Option Rat :=
  if df.nRows = 0 then none
  else
    let completeRows : Nat :=
      (List.range df.nRows).countP fun i => (df.row i).all fun v => ¬ v.isNull
    let completeness : Rat := ((completeRows : Rat) / (df.nRows : Rat)) * 100
    let uniq : Rat := (1 - (df.fullDupCount : Rat) / (df.nRows : Rat)) * 100
    some ((completeness + uniq) / 2)

/-! ## `FlightDataValidator._check_business_rules` -/

/-- One advisory warning `{rule, message, severity}`. -/
structure Warning where
  rule : String
  message : String
  severity : String
deriving DecidableEq, Repr

/-- The three fare columns required by the fare-consistency rule. -/
def fareRuleCols : List String :=
  ["Base Fare (BDT)", "Tax & Surcharge (BDT)", "Total Fare (BDT)"]

/-- Does row `i` violate `|Total − (Base + Tax)| > 1.0`?  A null (or
non-numeric) cell makes the row difference `NaN`, and `NaN > 1.0` is
false in pandas, so such rows never count. -/
def Snapshot.fareMismatchAt (df : Snapshot) (i : Nat) : Bool :=
  match ((df.colVals "Base Fare (BDT)").getD i Value.vNull).toRat?,
      ((df.colVals "Tax & Surcharge (BDT)").getD i Value.vNull).toRat?,
      ((df.colVals "Total Fare (BDT)").getD i Value.vNull).toRat? with
  | some b, some t, some tot => |((b + t) - tot)| > 1
  | _, _, _ => false

/-- Embeds `(abs(base + tax - total) > 1.0).sum()`. -/
def Snapshot.fareMismatchCount (df : Snapshot) : Nat :=
  (List.range df.nRows).countP df.fareMismatchAt

/-- Rule 1 of `_check_business_rules`: Total Fare = Base Fare + Tax
within a 1 BDT tolerance. -/
def checkFareRule (df : Snapshot) : List Warning :=
  if fareRuleCols.all (fun c => df.columns.contains c) then
    let mismatches := df.fareMismatchCount
    if mismatches > 0 then
      [{ rule := "Total Fare Calculation"
         message := toString mismatches ++ " rows have Total Fare != Base Fare + Tax"
         severity := "warning" }]
    else []
  else []

/-- The 4-column duplicate-flight key. -/
def dupKeyCols : List String :=
  ["Airline", "Source", "Destination", "Departure Date & Time"]

/-- Rule 2 of `_check_business_rules`: duplicates on the 4-column key. -/
def checkDupRule (df : Snapshot) : List Warning :=
  if dupKeyCols.all (fun c => df.columns.contains c) then
    let duplicates := df.dupOnSubset dupKeyCols
    if duplicates > 0 then
      [{ rule := "Duplicate Flights"
         message := toString duplicates ++ " potential duplicate flight records found"
         severity := "info" }]
    else []
  else []

/-- Embeds `Series.median()` (skips nulls; `none` models the `NaN` median of an
empty series). -/
def median? (xs : List Rat) : Option Rat :=
  let s := xs.insertionSort (· ≤ ·)
  let n := s.length
  if n = 0 then none
  else if n % 2 = 1 then some (s.getD (n / 2) 0)
  else some ((s.getD (n / 2 - 1) 0 + s.getD (n / 2) 0) / 2)

/-- The non-null numeric values of the fare column. -/
def Snapshot.fareVals (df : Snapshot) : List Rat :=
  (df.colVals "Total Fare (BDT)").filterMap Value.toRat?

/-- Rule 3 of `_check_business_rules`: fares above 10× or below 0.1× the
median.  When the median is `NaN` (no fare values) every comparison is
false, so no warning is produced. -/
def checkOutlierRule (df : Snapshot) : List Warning :=
  if df.columns.contains "Total Fare (BDT)" then
    match median? df.fareVals with
    | none => []
    | some m =>
      let outliers := df.fareVals.countP fun q => q > m * 10 || q < m * (1 / 10)
      if outliers > 0 then
        [{ rule := "Fare Outliers"
           message := toString outliers ++ " rows with extreme fares (10x or 0.1x median)"
           severity := "info" }]
      else []
  else []

/-- Embeds `_check_business_rules(df)`: the three advisory rules, each guarded by
a column-presence test and appended in declaration order. -/
def check_business_rules (df : Snapshot) : List Warning :=
  checkFareRule df ++ checkDupRule df ++ checkOutlierRule df

/-! ## `FlightDataValidator._calculate_stats` -/

/-- The `fare_stats` sub-record.  Each aggregate of an all-null column is
`NaN` in pandas, modelled as `none`.  `stdSq` holds the sample variance
(divisor `n − 1`); the code stores its square root, an irrational number
that `Rat` cannot hold — presence and absence behave identically. -/
structure FareStats where
  mean : Option Rat
  median : Option Rat
  min : Option Rat
  max : Option Rat
  stdSq : Option Rat
deriving DecidableEq, Repr

/-- Embeds `Series.mean()` over the non-null values. -/
def listMean? (xs : List Rat) : Option Rat :=
  if xs.length = 0 then none else some (xs.sum / (xs.length : Rat))

/-- Sample variance with divisor `n − 1` (`NaN`, i.e. `none`, for fewer
than two values), the square of `Series.std()`. -/
def listVar? (xs : List Rat) : Option Rat :=
  match listMean? xs with
  | none => none
  | some m =>
    if xs.length < 2 then none
    else some ((xs.map fun x => (x - m) ^ 2).sum / ((xs.length - 1 : Nat) : Rat))

/-- Embeds `Series.min()`. -/
def listMin? (xs : List Rat) : Option Rat :=
  xs.foldr (fun x acc => match acc with
    | none => some x
    | some y => some (Min.min x y)) none

/-- Embeds `Series.max()`. -/
def listMax? (xs : List Rat) : Option Rat :=
  xs.foldr (fun x acc => match acc with
    | none => some x
    | some y => some (Max.max x y)) none

/-- The statistics dictionary built by `_calculate_stats`. -/
structure Stats where
  total_rows : Nat
  total_columns : Nat
  missing_values : List (String × Nat)
  duplicate_rows : Nat
  fare_stats : Option FareStats
deriving DecidableEq, Repr

/-- Embeds `_calculate_stats(df)`: row/column counts, per-column null counts,
exact full-row duplicate count, and — only when the fare column exists —
the `fare_stats` block. -/
def calculate_stats (df : Snapshot) : Stats :=
  { total_rows := df.nRows
    total_columns := df.nCols
    missing_values := df.cols.map fun c => (c.name, c.nullCount)
    duplicate_rows := df.fullDupCount
    fare_stats :=
      if df.columns.contains "Total Fare (BDT)" then
        some
          { mean := listMean? df.fareVals
            median := median? df.fareVals
            min := listMin? df.fareVals
            max := listMax? df.fareVals
            stdSq := listVar? df.fareVals }
      else none }

/-! ## The pandera schema of `FlightDataValidator._define_schema` -/

/-- The check kinds used by the schema (pandera `Check`s).  Pandera runs
checks with `ignore_na=True`: null cells are dropped before a check is
applied, so every check passes on a null cell. -/
inductive CheckSpec
  | strLength (lo hi : Nat)
  | notNa
  | strIsUpper
  | gt (q : Rat)
  | ge (q : Rat)
  | lt (q : Rat)
  | isin (ss : List String)
deriving DecidableEq, Repr

/-- Python `str.isupper`: at least one cased character and no lowercase
cased character. -/
def pyIsUpper (s : String) : Bool :=
  s.data.any (fun c => c.isUpper || c.isLower) && s.data.all fun c => ¬ c.isLower

/-- Evaluate one check on one non-null cell (`true` = pass).  Null cells
are handled by the caller (`ignore_na`). -/
def runCheck : CheckSpec → Value → Bool
  | CheckSpec.strLength lo hi, Value.vStr s => lo ≤ s.length && s.length ≤ hi
  | CheckSpec.notNa, v => ¬ v.isNull
  | CheckSpec.strIsUpper, Value.vStr s => pyIsUpper s
  | CheckSpec.gt q, Value.vNum x => x > q
  | CheckSpec.ge q, Value.vNum x => x ≥ q
  | CheckSpec.lt q, Value.vNum x => x < q
  | CheckSpec.isin ss, Value.vStr s => ss.contains s
  | _, _ => false

/-- One pandera `Column` declaration. -/
structure ColSchema where
  name : String
  dtype : DType
  nullable : Bool
  checks : List CheckSpec
deriving DecidableEq, Repr

/-- The 17-column `DataFrameSchema` of `_define_schema` (`strict=False`:
undeclared columns are ignored). -/
def flightSchema : List ColSchema :=
  [ { name := "Airline", dtype := DType.dstr, nullable := false,
      checks := [CheckSpec.strLength 3 100, CheckSpec.notNa] },
    { name := "Source", dtype := DType.dstr, nullable := false,
      checks := [CheckSpec.strLength 2 5, CheckSpec.strIsUpper] },
    { name := "Source Name", dtype := DType.dstr, nullable := false, checks := [] },
    { name := "Destination", dtype := DType.dstr, nullable := false,
      checks := [CheckSpec.strLength 2 5, CheckSpec.strIsUpper] },
    { name := "Destination Name", dtype := DType.dstr, nullable := false, checks := [] },
    { name := "Departure Date & Time", dtype := DType.dstr, nullable := false, checks := [] },
    { name := "Arrival Date & Time", dtype := DType.dstr, nullable := false, checks := [] },
    { name := "Duration (hrs)", dtype := DType.dfloat, nullable := false,
      checks := [CheckSpec.gt 0, CheckSpec.lt 50] },
    { name := "Stopovers", dtype := DType.dstr, nullable := false, checks := [] },
    { name := "Aircraft Type", dtype := DType.dstr, nullable := true, checks := [] },
    { name := "Class", dtype := DType.dstr, nullable := false,
      checks := [CheckSpec.isin ["Economy", "Business", "First"]] },
    { name := "Booking Source", dtype := DType.dstr, nullable := false, checks := [] },
    { name := "Base Fare (BDT)", dtype := DType.dfloat, nullable := false,
      checks := [CheckSpec.gt 0, CheckSpec.lt 1000000] },
    { name := "Tax & Surcharge (BDT)", dtype := DType.dfloat, nullable := false,
      checks := [CheckSpec.ge 0, CheckSpec.lt 500000] },
    { name := "Total Fare (BDT)", dtype := DType.dfloat, nullable := false,
      checks := [CheckSpec.gt 0, CheckSpec.lt 1500000] },
    { name := "Seasonality", dtype := DType.dstr, nullable := false, checks := [] },
    { name := "Days Before Departure", dtype := DType.dint, nullable := false,
      checks := [CheckSpec.ge 0, CheckSpec.lt 365] } ]

/-- One row of pandera's `failure_cases` frame: the failing column, the
check that failed, and the row index (`none` for schema-level failures
such as a missing column or a wrong dtype). -/
structure FailureCase where
  column : String
  check : String
  index : Option Nat
deriving DecidableEq, Repr

/-- Display name for a check in a failure record. -/
def checkName : CheckSpec → String
  | CheckSpec.strLength lo hi => "str_length(" ++ toString lo ++ ", " ++ toString hi ++ ")"
  | CheckSpec.notNa => "<Check <lambda>>"
  | CheckSpec.strIsUpper => "<Check <lambda>>"
  | CheckSpec.gt q => "greater_than(" ++ toString q ++ ")"
  | CheckSpec.ge q => "greater_than_or_equal_to(" ++ toString q ++ ")"
  | CheckSpec.lt q => "less_than(" ++ toString q ++ ")"
  | CheckSpec.isin _ => "isin"

/-- The failure cases of one declared column, as pandera's lazy
validation collects them: a missing column gives one schema-level record;
a wrong dtype gives a single type-error record and short-circuits the
column's checks; otherwise non-nullable null cells fail row-wise and each
check is applied to every non-null cell. -/
def colErrors (cs : ColSchema) (df : Snapshot) : List FailureCase :=
  match df.getCol cs.name with
  | none => [{ column := cs.name, check := "column_in_dataframe", index := none }]
  | some c =>
    if c.dtype ≠ cs.dtype then
      [{ column := cs.name, check := "dtype", index := none }]
    else
      (if cs.nullable then [] else
        (List.range c.values.length).filterMap fun i =>
          if (c.values.getD i Value.vNull).isNull then
            some { column := cs.name, check := "not_nullable", index := some i }
          else none) ++
      cs.checks.flatMap fun k =>
        (List.range c.values.length).filterMap fun i =>
          let v := c.values.getD i Value.vNull
          if ¬ v.isNull ∧ ¬ runCheck k v then
            some { column := cs.name, check := checkName k, index := some i }
          else none

/-- All failure cases of the schema over a snapshot (lazy validation
collects every failure before raising). -/
def schemaErrors (df : Snapshot) : List FailureCase :=
  flightSchema.flatMap fun cs => colErrors cs df

/-- Embeds `self.schema.validate(df, lazy=True)`: returns the frame when no
failure case was collected, otherwise raises `SchemaErrors` carrying the
failure cases. -/
def schemaValidate (df : Snapshot) : Except (List FailureCase) Snapshot :=
  let errs := schemaErrors df
  if errs.isEmpty then Except.ok df else Except.error errs

/-! ## `FlightDataValidator.validate` -/

/-- The results dictionary of `validate`. -/
structure VResult where
  is_valid : Bool
  errors : List FailureCase
  warnings : List Warning
  stats : Stats
deriving DecidableEq, Repr

/-- Embeds `validate(df)`: starts from `{is_valid: False, errors: [], warnings:
[], stats: {}}`; the `try` sets `is_valid` on success while the `except
SchemaErrors` branch stores the failure cases; business-rule warnings and
statistics are filled in afterwards in both cases. -/
def validate (df : Snapshot) : VResult :=
  let afterTry : Bool × List FailureCase :=
    match schemaValidate df with
    | Except.ok _ => (true, [])
    | Except.error failures => (false, failures)
  { is_valid := afterTry.fst
    errors := afterTry.snd
    warnings := check_business_rules df
    stats := calculate_stats df }

/-- Embeds `validate` in state-passing form: the pair is (the caller's frame
after the call, the returned results).  The Python body never assigns to
`df` — every derived series is a fresh object — so the frame handed back
to the caller is the input frame itself. -/
def validate_state (df : Snapshot) : Snapshot × VResult :=
  (df, validate df)

/-! ## `data_quality.verify_fare_calculation` -/

/-- Embeds `df[name] = vals` (pandas column assignment: replaces or appends). -/
def Snapshot.setCol (df : Snapshot) (name : String) (dt : DType) (vals : List Value) : Snapshot :=
  if df.columns.contains name then
    { cols := df.cols.map fun c => if c.name == name then { c with dtype := dt, values := vals } else c }
  else
    { cols := df.cols ++ [{ name := name, dtype := dt, values := vals }] }

/-- Embeds `df.copy()`: a deep value copy; later writes to the copy cannot reach
the original. -/
def Snapshot.copy (df : Snapshot) : Snapshot := df

/-- Elementwise `base + tax` over the fare columns (null propagates). -/
def calcTotalSeries (df : Snapshot) : List Value :=
  (List.range df.nRows).map fun i =>
    match ((df.colVals "Base Fare (BDT)").getD i Value.vNull).toRat?,
        ((df.colVals "Tax & Surcharge (BDT)").getD i Value.vNull).toRat? with
    | some b, some t => Value.vNum (b + t)
    | _, _ => Value.vNull

/-- Elementwise `abs(total - calculated)` (null propagates). -/
def fareDiffSeries (df : Snapshot) : List Value :=
  (List.range df.nRows).map fun i =>
    match ((df.colVals "Total Fare (BDT)").getD i Value.vNull).toRat?,
        ((df.colVals "Calculated Total").getD i Value.vNull).toRat? with
    | some tot, some c => Value.vNum |(tot - c)|
    | _, _ => Value.vNull

/-- Embeds `verify_fare_calculation(df, tolerance)` in state-passing form: the
function works on `df_temp = df.copy()`, adds the two derived columns to
the copy, and returns (the caller's frame after the call, the working
copy it built).  The caller's frame is the untouched input `df`. -/
def verify_fare_calculation (df : Snapshot) (tolerance : Rat) : Snapshot × Snapshot :=
  let dfTemp := df.copy
  let dfTemp := dfTemp.setCol "Calculated Total" DType.dfloat (calcTotalSeries dfTemp)
  let dfTemp := dfTemp.setCol "Fare Difference" DType.dfloat (fareDiffSeries dfTemp)
  let _mismatches := (dfTemp.colVals "Fare Difference").countP fun v =>
    match v.toRat? with
    | some d => d > tolerance
    | none => false
  (df, dfTemp)

/-! ## Concrete snapshots used as witnesses and counterexamples -/

/-- The fully empty frame `pd.DataFrame()`: zero rows, zero columns. -/
def exEmpty : Snapshot := { cols := [] }

/-- A zero-row frame that carries every declared column with its declared
dtype. -/
def exEmptyTyped : Snapshot :=
  { cols := flightSchema.map fun cs => { name := cs.name, dtype := cs.dtype, values := [] } }

/-- A zero-row frame that still has the fare column. -/
def exZeroRowsFare : Snapshot :=
  { cols := [{ name := "Total Fare (BDT)", dtype := DType.dfloat, values := [] }] }

/-- The two-row fare-consistency example: `{Base:100, Tax:20, Total:120}`
and `{Base:100, Tax:20, Total:200}`. -/
def exFare : Snapshot :=
  { cols :=
      [ { name := "Base Fare (BDT)", dtype := DType.dfloat,
          values := [Value.vNum 100, Value.vNum 100] },
        { name := "Tax & Surcharge (BDT)", dtype := DType.dfloat,
          values := [Value.vNum 20, Value.vNum 20] },
        { name := "Total Fare (BDT)", dtype := DType.dfloat,
          values := [Value.vNum 120, Value.vNum 200] } ] }

/-- Two rows equal on the 4-column duplicate key but different in the
`Class` column. -/
def exDupKey : Snapshot :=
  { cols :=
      [ { name := "Airline", dtype := DType.dstr,
          values := [Value.vStr "AirAstra", Value.vStr "AirAstra"] },
        { name := "Source", dtype := DType.dstr,
          values := [Value.vStr "DAC", Value.vStr "DAC"] },
        { name := "Destination", dtype := DType.dstr,
          values := [Value.vStr "CXB", Value.vStr "CXB"] },
        { name := "Departure Date & Time", dtype := DType.dstr,
          values := [Value.vStr "2024-01-01 10:00", Value.vStr "2024-01-01 10:00"] },
        { name := "Class", dtype := DType.dstr,
          values := [Value.vStr "Economy", Value.vStr "Business"] } ] }

/-- Ten pairwise-distinct fare values. -/
def tenFares : List Value :=
  [Value.vNum 1000, Value.vNum 1100, Value.vNum 1200, Value.vNum 1300, Value.vNum 1400,
   Value.vNum 1500, Value.vNum 1600, Value.vNum 1700, Value.vNum 1800, Value.vNum 1900]

/-- A second column with exactly one missing cell (row 0). -/
def oneNullCol : List Value :=
  [Value.vNull, Value.vNum 1, Value.vNum 2, Value.vNum 3, Value.vNum 4,
   Value.vNum 5, Value.vNum 6, Value.vNum 7, Value.vNum 8, Value.vNum 9]

/-- Ten rows, three columns, exactly one missing cell, no duplicate rows. -/
def exTenThreeCols : Snapshot :=
  { cols :=
      [ { name := "Total Fare (BDT)", dtype := DType.dfloat, values := tenFares },
        { name := "Duration (hrs)", dtype := DType.dfloat, values := oneNullCol },
        { name := "Stopovers", dtype := DType.dstr,
          values := [Value.vStr "Direct", Value.vStr "Direct", Value.vStr "Direct",
            Value.vStr "Direct", Value.vStr "Direct", Value.vStr "Direct",
            Value.vStr "Direct", Value.vStr "Direct", Value.vStr "Direct",
            Value.vStr "Direct"] } ] }

/-- Ten rows, two columns, exactly one missing cell, no duplicate rows. -/
def exTenTwoCols : Snapshot :=
  { cols :=
      [ { name := "Total Fare (BDT)", dtype := DType.dfloat, values := tenFares },
        { name := "Duration (hrs)", dtype := DType.dfloat, values := oneNullCol } ] }

/-- Two rows, one column, every cell missing: the two all-null rows count
as duplicates of each other and every cell is missing. -/
def exAllNull : Snapshot :=
  { cols := [{ name := "Total Fare (BDT)", dtype := DType.dfloat,
               values := [Value.vNull, Value.vNull] }] }

/-! ## Helper lemmas -/

/-- A column found by `getCol` with an empty value list and the right
dtype yields no failure cases. -/
lemma colErrors_eq_nil (cs : ColSchema) (df : Snapshot) (c : Col)
    (hfind : df.getCol cs.name = some c) (hdt : c.dtype = cs.dtype)
    (hval : c.values = []) : colErrors cs df = [] := by
  unfold colErrors
  rw [hfind]
  simp only [hdt, hval]
  simp [List.flatMap]

/-- A `flatMap` over a list all of whose images are empty is empty. -/
lemma flatMap_eq_nil_of_forall {α β : Type} (l : List α) (f : α → List β)
    (h : ∀ x ∈ l, f x = []) : l.flatMap f = [] := by
  induction l with
  | nil => rfl
  | cons x xs ih =>
    simp only [List.flatMap_cons]
    rw [h x (List.mem_cons_self x xs), ih fun y hy => h y (List.mem_cons_of_mem x hy)]
    rfl

/-! ## Claims -/

/-- C1: for every snapshot, `validate` reports `is_valid = true` exactly
when its `errors` sequence is empty — `is_valid` is decided by the schema
try/except alone (pandera raises `SchemaErrors` precisely when the
collected failure-case list is non-empty), and the warnings added
afterwards never touch it. -/
theorem c1_is_valid_iff_no_errors (df : Snapshot) :
    (validate df).is_valid = true ↔ (validate df).errors = [] := by
  unfold validate schemaValidate
  by_cases h : (schemaErrors df).isEmpty
  · simp [h]
  · simp only [h, Bool.false_eq_true, if_false]
    constructor
    · intro hcontra
      exact absurd hcontra (by simp)
    · intro herr
      exact absurd (List.isEmpty_iff.mpr herr) (by simp [h])

/-- C2 counterexample: the claim says every zero-row snapshot validates
with `is_valid = true`, but the empty frame `pd.DataFrame()` has zero
rows and no columns, so every declared column is missing and pandera
collects one `column_in_dataframe` failure per declared column:
`is_valid` is `false`. -/
theorem c2_counterexample :
    (validate exEmpty).stats.total_rows = 0 ∧ (validate exEmpty).is_valid = false ∧
      (validate exEmpty).errors.length = 17 := by decide

/-- C2 amended: a zero-row snapshot that carries every declared column
with its declared dtype validates with `is_valid = true`, an empty error
sequence, and `stats.total_rows = 0`. -/
theorem c2_empty_snapshot_valid (df : Snapshot)
    (hdt : flightSchema.all (fun cs => (df.getCol cs.name).any fun c => c.dtype == cs.dtype) = true)
    (hz : df.cols.all (fun c => c.values.isEmpty) = true) :
    (validate df).is_valid = true ∧ (validate df).errors = [] ∧
      (validate df).stats.total_rows = 0 := by
  have hcol : ∀ cs ∈ flightSchema, colErrors cs df = [] := by
    intro cs hcs
    have hany := (List.all_eq_true.mp hdt) cs hcs
    cases hfind : df.getCol cs.name with
    | none => rw [hfind] at hany; exact absurd hany (by simp [Option.any])
    | some c =>
      rw [hfind] at hany
      have hdtc : c.dtype = cs.dtype := by
        have : (c.dtype == cs.dtype) = true := by simpa [Option.any] using hany
        exact eq_of_beq this
      have hmem : c ∈ df.cols := List.mem_of_find?_eq_some hfind
      have hempty : c.values = [] :=
        List.isEmpty_iff.mp ((List.all_eq_true.mp hz) c hmem)
      exact colErrors_eq_nil cs df c hfind hdtc hempty
  have herrs : schemaErrors df = [] :=
    flatMap_eq_nil_of_forall flightSchema (fun cs => colErrors cs df) hcol
  have hrows : df.nRows = 0 := by
    unfold Snapshot.nRows
    cases hc : df.cols with
    | nil => rfl
    | cons c t =>
      have : c.values = [] := by
        apply List.isEmpty_iff.mp
        apply (List.all_eq_true.mp hz)
        rw [hc]; exact List.mem_cons_self c t
      simp [this]
  refine ⟨?_, ?_, ?_⟩
  · unfold validate schemaValidate
    simp [herrs]
  · unfold validate schemaValidate
    simp [herrs]
  · unfold validate calculate_stats
    simpa using hrows

/-- Witness for the amended C2 at the concrete zero-row frame carrying
all 17 declared columns. -/
theorem c2_empty_snapshot_valid_witness :
    (validate exEmptyTyped).is_valid = true ∧ (validate exEmptyTyped).errors = [] ∧
      (validate exEmptyTyped).stats.total_rows = 0 :=
  c2_empty_snapshot_valid exEmptyTyped (by decide) (by decide)

/-- Total number of missing cells counted row-wise (the independent
reformulation of `df.isnull().sum().sum()`, which the code sums
column-wise). -/
def rowMissingTotal (df : Snapshot) : Nat :=
  ((List.range df.nRows).map fun i => (df.row i).countP Value.isNull).sum

/-- Expresses `countP` as a sum over positions. -/
lemma countP_eq_sum_range (p : Value → Bool) (l : List Value) :
    l.countP p =
      ((List.range l.length).map fun i =>
        if p (l.getD i Value.vNull) = true then 1 else 0).sum := by
  induction l with
  | nil => simp
  | cons x xs ih =>
    rw [List.countP_cons, List.length_cons, List.range_succ_eq_map, List.map_cons,
      List.sum_cons, List.map_map]
    have hcomp : ((fun i => if p ((x :: xs).getD i Value.vNull) = true then 1 else 0) ∘ Nat.succ)
        = fun i => if p (xs.getD i Value.vNull) = true then 1 else 0 := by
      funext i
      simp [Function.comp, Nat.succ_eq_add_one, List.getD_cons_succ]
    rw [hcomp, List.getD_cons_zero, ← ih]
    omega

/-- Summing a pointwise sum over `range n` splits into two sums. -/
lemma sum_range_map_add (n : Nat) (f g : Nat → Nat) :
    ((List.range n).map fun i => f i + g i).sum =
      ((List.range n).map f).sum + ((List.range n).map g).sum := by
  induction n with
  | zero => simp
  | succ m ih =>
    rw [List.range_succ]
    simp only [List.map_append, List.sum_append, List.map_cons, List.map_nil,
      List.sum_cons, List.sum_nil, ih]
    omega

/-- Double counting: for a rectangular table (every column of length
`n`), the column-wise total of null cells equals the row-wise total. -/
lemma sum_colNulls_eq_sum_rowNulls (L : List Col) (n : Nat)
    (h : ∀ c ∈ L, c.values.length = n) :
    (L.map Col.nullCount).sum =
      ((List.range n).map fun i =>
        (L.map fun c => c.values.getD i Value.vNull).countP Value.isNull).sum := by
  induction L with
  | nil => simp
  | cons c t ih =>
    have hc : c.values.length = n := h c (List.mem_cons_self c t)
    have ht : ∀ x ∈ t, x.values.length = n := fun x hx => h x (List.mem_cons_of_mem c hx)
    simp only [List.map_cons, List.sum_cons]
    have hrow : ∀ i : Nat,
        ((c :: t).map fun d => d.values.getD i Value.vNull).countP Value.isNull =
        (if Value.isNull (c.values.getD i Value.vNull) = true then 1 else 0) +
          ((t.map fun d => d.values.getD i Value.vNull).countP Value.isNull) := by
      intro i
      simp only [List.map_cons, List.countP_cons]
      omega
    calc c.nullCount + (t.map Col.nullCount).sum
        = ((List.range n).map fun i =>
            if Value.isNull (c.values.getD i Value.vNull) = true then 1 else 0).sum +
          ((List.range n).map fun i =>
            (t.map fun d => d.values.getD i Value.vNull).countP Value.isNull).sum := by
          rw [ih ht]
          congr 1
          have := countP_eq_sum_range Value.isNull c.values
          rw [Col.nullCount, this, hc]
      _ = ((List.range n).map fun i =>
            (if Value.isNull (c.values.getD i Value.vNull) = true then 1 else 0) +
              ((t.map fun d => d.values.getD i Value.vNull).countP Value.isNull)).sum := by
          rw [sum_range_map_add]
      _ = ((List.range n).map fun i =>
            ((c :: t).map fun d => d.values.getD i Value.vNull).countP Value.isNull).sum := by
          apply congrArg List.sum
          apply List.map_congr_left
          intro i _
          exact (hrow i).symm

/-- On a rectangular snapshot the code's column-wise missing-cell total
agrees with the row-wise count. -/
lemma missingTotal_eq_rowMissingTotal (df : Snapshot)
    (h : ∀ c ∈ df.cols, c.values.length = df.nRows) :
    df.missingTotal = rowMissingTotal df := by
  unfold Snapshot.missingTotal rowMissingTotal Snapshot.row
  exact sum_colNulls_eq_sum_rowNulls df.cols df.nRows h

/-- C3 counterexample: on a 10-row, 3-column snapshot with exactly one
missing cell and no duplicate rows the code returns
`100·(1 − 1/30) = 290/3 ≈ 96.67`, while the spec formula
`(completeness + uniqueness)/2` gives `95`: the two disagree, so the
claimed equality (and the claimed unconditional `95.0` for the 10-row
example) fails. -/
theorem c3_counterexample :
    qualityScore? exTenThreeCols = some (290 / 3) ∧
      specOverallScore exTenThreeCols = some 95 ∧ ((290 : Rat) / 3) ≠ 95 := by
  with_unfolding_all decide

/-- C3 amended: the code's overall score is
`100 · (1 − (missing_cells + duplicate_rows) / (rows · columns))`, where
`missing_cells` is the total number of null cells (counted row-wise here)
— not `(completeness + uniqueness)/2`; the 10-row example with one
missing field and no duplicates yields `95.0` when the table has exactly
two columns. -/
theorem c3_quality_score_formula :
    (∀ df : Snapshot, df.columns.contains "Total Fare (BDT)" = true →
      (∀ c ∈ df.cols, c.values.length = df.nRows) →
      df.nRows * df.nCols ≠ 0 →
      qualityScore? df = some (100 * (1 -
        ((rowMissingTotal df : Rat) + (df.fullDupCount : Rat)) /
          ((df.nRows * df.nCols : Nat) : Rat)))) ∧
    qualityScore? exTenTwoCols = some 95 := by
  constructor
  · intro df hfare hrect hnz
    unfold qualityScore? generate_quality_summary
    rw [hfare]
    simp only [if_true, Option.some_bind]
    rw [missingTotal_eq_rowMissingTotal df hrect]
    exact if_neg hnz
  · with_unfolding_all decide

/-- Witness for the amended C3: the general formula applied to the
concrete 10-row, 3-column snapshot. -/
theorem c3_quality_score_formula_witness :
    qualityScore? exTenThreeCols = some (100 * (1 -
      ((rowMissingTotal exTenThreeCols : Rat) + (exTenThreeCols.fullDupCount : Rat)) /
        ((exTenThreeCols.nRows * exTenThreeCols.nCols : Nat) : Rat))) :=
  c3_quality_score_formula.1 exTenThreeCols (by decide) (by decide) (by decide)

/-- C4 counterexample: on a zero-row snapshot (here one that still has
the fare column, so the summary is produced at all) the quality-score
expression divides by zero — numpy yields `NaN` (modelled `none`) — so
the scorer does not return 100%. -/
theorem c4_counterexample :
    qualityScore? exZeroRowsFare = none ∧ qualityScore? exZeroRowsFare ≠ some 100 := by
  with_unfolding_all decide

/-- C4 amended: for every zero-row snapshot the code yields no numeric
quality score at all: the division `(missing + duplicates)/(rows·cols)`
has a zero denominator (`NaN`), and when the fare column is also absent
the function dies earlier with a `KeyError`; in neither case is `100%`
returned — the 100% convention is a spec recommendation the source does
not implement. -/
theorem c4_zero_rows_score_undefined (df : Snapshot) (hz : df.nRows = 0) :
    qualityScore? df = none := by
  unfold qualityScore? generate_quality_summary
  by_cases hfare : df.columns.contains "Total Fare (BDT)" = true
  · rw [hfare]
    simp only [if_true, Option.some_bind]
    exact if_pos (by rw [hz]; exact Nat.zero_mul _)
  · rw [if_neg hfare]
    rfl

/-- Witness for the amended C4 at the zero-row frame with a fare
column. -/
theorem c4_zero_rows_score_undefined_witness : qualityScore? exZeroRowsFare = none :=
  c4_zero_rows_score_undefined exZeroRowsFare (by decide)

/-- C5: the fare-consistency rule warns exactly when at least one row has
`|Total − (Base + Tax)| > 1.0`; the single warning states the affected
row count in its message and carries severity `"warning"`; on the two-row
example `[{Base:100, Tax:20, Total:120}, {Base:100, Tax:20, Total:200}]`
exactly one warning naming 1 affected row is produced. -/
theorem c5_fare_rule :
    (∀ df : Snapshot, fareRuleCols.all (fun c => df.columns.contains c) = true →
      ((checkFareRule df ≠ [] ↔ ∃ i, i < df.nRows ∧ df.fareMismatchAt i = true) ∧
       (0 < df.fareMismatchCount →
         checkFareRule df =
           [⟨"Total Fare Calculation",
             toString df.fareMismatchCount ++ " rows have Total Fare != Base Fare + Tax",
             "warning"⟩]))) ∧
    checkFareRule exFare =
      [⟨"Total Fare Calculation", "1 rows have Total Fare != Base Fare + Tax", "warning"⟩] := by
  constructor
  · intro df hcols
    constructor
    · unfold checkFareRule
      rw [hcols]
      simp only [if_true]
      by_cases hm : df.fareMismatchCount > 0
      · rw [if_pos hm]
        simp only [ne_eq, List.cons_ne_nil, not_false_iff, true_iff]
        have hm2 : 0 < (List.range df.nRows).countP df.fareMismatchAt := hm
        obtain ⟨i, hmem, hp⟩ := List.countP_pos_iff.mp hm2
        exact ⟨i, List.mem_range.mp hmem, hp⟩
      · rw [if_neg hm]
        constructor
        · intro hne
          exact absurd rfl hne
        · rintro ⟨i, hi, hp⟩
          have hm2 : 0 < (List.range df.nRows).countP df.fareMismatchAt :=
            List.countP_pos_iff.mpr ⟨i, List.mem_range.mpr hi, hp⟩
          exact absurd hm2 hm
    · intro hm
      unfold checkFareRule
      rw [hcols]
      simp only [if_true]
      rw [if_pos hm]
  · with_unfolding_all decide

/-- Witness for C5: the general equivalence applied to the concrete
two-row example. -/
theorem c5_fare_rule_witness :
    checkFareRule exFare ≠ [] ↔ ∃ i, i < exFare.nRows ∧ exFare.fareMismatchAt i = true :=
  (c5_fare_rule.1 exFare (by decide)).1

/-- C6: the duplicate-flights rule counts duplicates on the 4-column key
(Airline, Source, Destination, departure timestamp) and reports them with
severity `"info"`, while `stats.duplicate_rows` counts only exact
full-row duplicates; on two rows equal on the key but different in the
`Class` column the rule reports 1 duplicate while `duplicate_rows` is 0. -/
theorem c6_dup_rule :
    (∀ df : Snapshot, dupKeyCols.all (fun c => df.columns.contains c) = true →
      0 < df.dupOnSubset dupKeyCols →
      checkDupRule df =
        [⟨"Duplicate Flights",
          toString (df.dupOnSubset dupKeyCols) ++ " potential duplicate flight records found",
          "info"⟩]) ∧
    exDupKey.subRow dupKeyCols 0 = exDupKey.subRow dupKeyCols 1 ∧
    exDupKey.row 0 ≠ exDupKey.row 1 ∧
    checkDupRule exDupKey =
      [⟨"Duplicate Flights", "1 potential duplicate flight records found", "info"⟩] ∧
    (calculate_stats exDupKey).duplicate_rows = 0 := by
  refine ⟨?_, by decide, by decide, by decide, by decide⟩
  intro df hcols hdup
  unfold checkDupRule
  rw [hcols]
  simp only [if_true]
  rw [if_pos hdup]

/-- Witness for C6: the general warning shape applied to the concrete
key-duplicate example. -/
theorem c6_dup_rule_witness :
    checkDupRule exDupKey =
      [⟨"Duplicate Flights",
        toString (exDupKey.dupOnSubset dupKeyCols) ++ " potential duplicate flight records found",
        "info"⟩] :=
  c6_dup_rule.1 exDupKey (by decide) (by decide)

/-- C7: the business-rule checker is a total function — no rule can abort
it — and the three rules are independent: the output is always the
concatenation of the three rules' own outputs in declaration order, and a
rule whose required columns are absent contributes nothing while the
others still run. -/
theorem c7_rules_independent (df : Snapshot) :
    check_business_rules df = checkFareRule df ++ checkDupRule df ++ checkOutlierRule df ∧
    (fareRuleCols.all (fun c => df.columns.contains c) = false → checkFareRule df = []) ∧
    (dupKeyCols.all (fun c => df.columns.contains c) = false → checkDupRule df = []) ∧
    (df.columns.contains "Total Fare (BDT)" = false → checkOutlierRule df = []) := by
  refine ⟨rfl, ?_, ?_, ?_⟩
  · intro h
    unfold checkFareRule
    rw [h]
    rfl
  · intro h
    unfold checkDupRule
    rw [h]
    rfl
  · intro h
    unfold checkOutlierRule
    rw [h]
    rfl

/-- Witness for C7: on the fare-only example the duplicate and outlier
guards are exercised — the duplicate rule is skipped for missing columns
while rule 1 still fires. -/
theorem c7_rules_independent_witness :
    checkDupRule exFare = [] ∧
      check_business_rules exFare = checkFareRule exFare ++ checkDupRule exFare ++
        checkOutlierRule exFare :=
  ⟨(c7_rules_independent exFare).2.2.1 (by decide), (c7_rules_independent exFare).1⟩

/-- C8: the statistics record carries a `fare_stats` entry exactly when
the column `"Total Fare (BDT)"` is present; when it is absent the entry
is omitted (`none`), not zero-filled. -/
theorem c8_fare_stats_iff (df : Snapshot) :
    (calculate_stats df).fare_stats.isSome = true ↔ "Total Fare (BDT)" ∈ df.columns := by
  unfold calculate_stats
  by_cases h : df.columns.contains "Total Fare (BDT)" = true
  · simp only [h, if_true, Option.isSome_some, true_iff]
    exact List.elem_iff.mp h
  · simp only [h, Bool.false_eq_true, if_false, Option.isSome_none]
    constructor
    · intro hcontra
      exact absurd hcontra (by simp)
    · intro hmem
      exact absurd (List.elem_iff.mpr hmem) h

/-- C9 counterexample: the claim says the quality score always lies in
`[0, 100]`, but on a 2-row, 1-column snapshot whose cells are all missing
(so the two all-null rows also count as one duplicate) the score is
`100·(1 − (2+1)/2) = −50 < 0`. -/
theorem c9_counterexample :
    qualityScore? exAllNull = some (-50) ∧ ¬ ((0 : Rat) ≤ -50) := by
  with_unfolding_all decide

/-- C9 amended: whenever the scorer returns a numeric score at all, the
score is at most 100 — but it has no lower bound of 0 (it is negative as
soon as missing cells plus duplicate rows exceed the cell count). -/
theorem c9_score_at_most_100 (df : Snapshot) (q : Rat)
    (h : qualityScore? df = some q) : q ≤ 100 := by
  unfold qualityScore? generate_quality_summary at h
  by_cases hfare : df.columns.contains "Total Fare (BDT)" = true
  · rw [hfare] at h
    simp only [if_true, Option.some_bind] at h
    by_cases hz : df.nRows * df.nCols = 0
    · rw [if_pos hz] at h
      exact absurd h (by simp)
    · rw [if_neg hz] at h
      have hq : q = 100 * (1 - ((df.missingTotal : Rat) + (df.fullDupCount : Rat)) /
          ((df.nRows * df.nCols : Nat) : Rat)) := (Option.some_inj.mp h).symm
      have hnum : (0 : Rat) ≤ (df.missingTotal : Rat) + (df.fullDupCount : Rat) := by
        positivity
      have hden : (0 : Rat) ≤ ((df.nRows * df.nCols : Nat) : Rat) := by positivity
      have hfrac : (0 : Rat) ≤ ((df.missingTotal : Rat) + (df.fullDupCount : Rat)) /
          ((df.nRows * df.nCols : Nat) : Rat) := div_nonneg hnum hden
      rw [hq]
      nlinarith
  · rw [if_neg hfare] at h
    exact absurd h (by simp [Option.bind])

/-- Witness for the amended C9 at the 10-row, 2-column example whose
score is 95. -/
theorem c9_score_at_most_100_witness : (95 : Rat) ≤ 100 :=
  c9_score_at_most_100 exTenTwoCols 95 (by with_unfolding_all decide)

/-- C10: validation never mutates the caller's snapshot: `validate` in
state-passing form hands the input frame back unchanged, and
`verify_fare_calculation` adds its two derived columns only to the
`df.copy()` working frame, returning the caller's frame untouched. -/
theorem c10_no_mutation (df : Snapshot) (tolerance : Rat) :
    (validate_state df).fst = df ∧ (verify_fare_calculation df tolerance).fst = df :=
  ⟨rfl, rfl⟩

end FlightFare
